import Mathlib

/-!
Shallow embedding of `cdk/cdk/alb_monitor_stack.py` from the
aws-alb-target-group-load-shedding repository.

The python module declares two CDK stacks:

* `ALBMonitorStack` — deployment parameters, an SQS queue, an inline
  send-message IAM policy, a Lambda execution role with four managed
  policies, a Lambda layer, the decision function `ALBAlarmLambda`
  (with eight environment variables) and the enforcement function
  `ALBSQSMessageLambda` (with the queue as its event source).

* `ALBCloudWatchStack` — reads the `elbTargetGroupArn` context value
  (raising `ValueError` when absent), computes the `TargetGroup` metric
  dimension with python's `str.find` and slicing, and creates a metric,
  an alarm and an EventBridge rule targeting the decision function.

Constructor calls become record values; CDK deploy-time tokens
(`value_as_string`, `queue_arn`, …) become symbolic `CdkValue`s; the
context lookup and the `ValueError` become an `Except` result.
-/

/-- Symbolic deploy-time CDK token: a reference to a parameter value or a
resource attribute that is only substituted at deployment. -/
inductive CdkValue where
  | param_string (param_id : String)
  | param_number (param_id : String)
  | queue_arn (queue_id : String)
  | queue_url (queue_id : String)
  | alarm_arn (alarm_id : String)
  deriving DecidableEq, Repr

/-- Embedding of `core.CfnParameter(self, id, type=..., description=...,
min_value=..., max_value=..., default=...)`. -/
structure CfnParameter where
  id : String
  type : String
  description : String
  min_value : Option Int := none
  max_value : Option Int := none
  default_num : Option Int := none
  default_str : Option String := none
  deriving DecidableEq, Repr

/-- An Int is accepted for a parameter when it satisfies the declared
`min_value` and `max_value` constraints. -/
def param_accepts (p : CfnParameter) (v : Int) : Bool :=
  (match p.min_value with
   | some m => decide (m ≤ v)
   | none => true) &&
  (match p.max_value with
   | some m => decide (v ≤ m)
   | none => true)

/-- Embedding of `aws_sqs.Queue(scope=self, id=...)`. -/
structure Queue where
  id : String
  deriving DecidableEq, Repr

/-- One statement of an IAM policy document. -/
structure PolicyStatement where
  effect : String
  action : String
  resource : CdkValue
  deriving DecidableEq, Repr

/-- An IAM policy document (`aws_iam.PolicyDocument.from_json`). -/
structure PolicyDocument where
  version : String
  statements : List PolicyStatement
  deriving DecidableEq, Repr

/-- Embedding of `aws_iam.Role(...)`. -/
structure Role where
  id : String
  assumed_by : String
  description : String
  managed_policy_arns : List String
  inline_policies : List PolicyDocument
  deriving DecidableEq, Repr

/-- Lambda runtimes referenced by the module. -/
inductive Runtime where
  | PYTHON_3_7
  | PYTHON_3_8
  deriving DecidableEq, Repr

/-- Embedding of `aws_lambda.LayerVersion(...)`. -/
structure LayerVersion where
  id : String
  description : String
  layer_version_name : String
  compatible_runtimes : List Runtime
  code_path : String
  deriving DecidableEq, Repr

/-- Embedding of `aws_lambda.Function(...)`; `event_sources` records the
queue ids registered through `add_event_source`. -/
structure LambdaFunction where
  id : String
  code_path : String
  handler : String
  function_name : String
  runtime : Runtime
  description : String
  environment : List (String × CdkValue)
  layers : List String
  memory_size : Nat
  role_id : String
  event_sources : List String
  deriving DecidableEq, Repr

/-- Embedding of the `send_sqs_json` dict built in `ALBMonitorStack.__init__`
and turned into a policy document with `PolicyDocument.from_json`. -/
def send_sqs_json : PolicyDocument :=
  { version := "2012-10-17"
    statements :=
      [{ effect := "Allow"
         action := "sqs:SendMessage"
         resource := CdkValue.queue_arn "alb_target_group_monitor_queue" }] }

/-- The resources created by `ALBMonitorStack.__init__`. -/
structure ALBMonitorStack where
  parameters : List CfnParameter
  queue : Queue
  lambda_execution_role : Role
  elb_monitor_layer : LayerVersion
  alb_alarm_lambda : LambdaFunction
  alb_sqs_alarm_lambda : LambdaFunction
  deriving DecidableEq, Repr

/-- Embedding of `ALBMonitorStack.__init__`, translated constructor call by
constructor call from the python source. -/
def albMonitorStack : ALBMonitorStack :=
  { parameters :=
      [{ id := "elbArn", type := "String", description := "ARN for ELB" },
       { id := "elbListenerArn", type := "String",
         description := "ARN for ELB listener" },
       { id := "elbShedPercent", type := "Number",
         description := "Percentage to shed expressed as an integer",
         min_value := some 0, max_value := some 100, default_num := some 5 },
       { id := "maxElbShedPercent", type := "Number",
         description := "Maximum allowable load to shed from ELB",
         min_value := some 0, max_value := some 100, default_num := some 100 },
       { id := "elbRestorePercent", type := "Number",
         description := "Percentage to restore expressed as an integer",
         min_value := some 0, max_value := some 100, default_num := some 5 },
       { id := "shedMesgDelaySec", type := "Number",
         description := "Number of seconds to delay shed messages",
         min_value := some 60, max_value := some 300, default_num := some 60 },
       { id := "restoreMesgDelaySec", type := "Number",
         description := "Number of seconds to delay restore messages",
         min_value := some 60, max_value := some 300, default_num := some 120 }]
    queue := { id := "alb_target_group_monitor_queue" }
    lambda_execution_role :=
      { id := "ALB_Lambda_Role"
        assumed_by := "lambda.amazonaws.com"
        description := "Role assumed by ALB monitoring lambdas"
        managed_policy_arns :=
          ["arn:aws:iam::aws:policy/AWSLambdaExecute",
           "arn:aws:iam::aws:policy/service-role/AWSLambdaSQSQueueExecutionRole",
           "arn:aws:iam::aws:policy/CloudWatchReadOnlyAccess",
           "arn:aws:iam::aws:policy/ElasticLoadBalancingFullAccess"]
        inline_policies := [send_sqs_json] }
    elb_monitor_layer :=
      { id := "ALBMonitorLayer"
        description := "ALBMonitoring Layer"
        layer_version_name := "ALBMonitorLayer"
        compatible_runtimes := [Runtime.PYTHON_3_7, Runtime.PYTHON_3_8]
        code_path := "resources/lambda_layer/elb_load_monitor.zip" }
    alb_alarm_lambda :=
      { id := "ALBAlarmLambda"
        code_path := "resources/lambda/alb_alarm_lambda_handler.zip"
        handler := "alb_alarm_lambda_handler.lambda_handler"
        function_name := "ALBAlarmLambda"
        runtime := Runtime.PYTHON_3_8
        description := "Lambda Handler for ALB Alarms"
        environment :=
          [("ELB_ARN", CdkValue.param_string "elbArn"),
           ("ELB_LISTENER_ARN", CdkValue.param_string "elbListenerArn"),
           ("SQS_QUEUE_URL", CdkValue.queue_url "alb_target_group_monitor_queue"),
           ("ELB_SHED_PERCENT", CdkValue.param_string "elbShedPercent"),
           ("MAX_ELB_SHED_PERCENT", CdkValue.param_string "maxElbShedPercent"),
           ("ELB_RESTORE_PERCENT", CdkValue.param_string "elbRestorePercent"),
           ("SHED_MESG_DELAY_SEC", CdkValue.param_string "shedMesgDelaySec"),
           ("RESTORE_MESG_DELAY_SEC", CdkValue.param_string "restoreMesgDelaySec")]
        layers := ["ALBMonitorLayer"]
        memory_size := 128
        role_id := "ALB_Lambda_Role"
        event_sources := [] }
    alb_sqs_alarm_lambda :=
      { id := "ALBSQSMessageLambda"
        code_path := "resources/lambda/alb_alarm_check_lambda_handler.zip"
        handler := "alb_alarm_check_lambda_handler.lambda_handler"
        function_name := "ALBSQSMessageLambda"
        runtime := Runtime.PYTHON_3_8
        description := "Lambda Handler for SQS Messages from ALB Monitor"
        environment := []
        layers := ["ALBMonitorLayer"]
        memory_size := 128
        role_id := "ALB_Lambda_Role"
        event_sources := ["alb_target_group_monitor_queue"] } }

/-! Python string primitives used by `ALBCloudWatchStack.__init__` to build
the `TargetGroup` dimension:
`elb_target_group_arn[elb_target_group_arn.find('targetgroup'):len(elb_target_group_arn)]`. -/

/-- The index of the first occurrence of `need` in a list, if any, matching
python `str.find` on the successful path. -/
def find_sub (need : List Char) : List Char → Option Nat
  | [] => if need = [] then some 0 else none
  | c :: t =>
    if (c :: t).take need.length = need then some 0
    else (find_sub need t).map (fun k => k + 1)

/-- Python `hay.find(need)`: first index of `need` in `hay`, else `-1`. -/
def py_find (hay need : List Char) : Int :=
  match find_sub need hay with
  | some k => (k : Int)
  | none => -1

/-- Python `s[i:len(s)]` with a possibly negative start index: a negative
index counts from the end (clamped at the start of the string). -/
def py_slice_from (s : List Char) (i : Int) : List Char :=
  if i < 0 then s.drop (s.length - (-i).toNat) else s.drop i.toNat

/-- The characters of the literal `'targetgroup'`. -/
def targetgroup_chars : List Char := "targetgroup".toList

/-- Embedding of the `target_group_dimension` expression of
`ALBCloudWatchStack.__init__`. -/
def target_group_dimension (arn : List Char) : List Char :=
  py_slice_from arn (py_find arn targetgroup_chars)

/-- String-level wrapper of `target_group_dimension`. -/
def target_group_dimension_str (arn : String) : String :=
  String.mk (target_group_dimension arn.toList)

/-- Embedding of `cdk.Duration.minutes(n)` measured in seconds. -/
def duration_minutes_to_seconds (n : Nat) : Nat := n * 60

/-- Embedding of `aws_cloudwatch.Metric(...)`. -/
structure Metric where
  metric_namespace : CdkValue
  metric_name : CdkValue
  dimensions : List (String × String)
  statistic : String
  period_seconds : Nat
  deriving DecidableEq, Repr

/-- The comparison operators of `aws_cloudwatch.ComparisonOperator`. -/
inductive ComparisonOperator where
  | GREATER_THAN_THRESHOLD
  | GREATER_THAN_OR_EQUAL_TO_THRESHOLD
  | LESS_THAN_THRESHOLD
  | LESS_THAN_OR_EQUAL_TO_THRESHOLD
  deriving DecidableEq, Repr

/-- Embedding of `aws_cloudwatch.Alarm(...)`. -/
structure Alarm where
  id : String
  alarm_name : String
  alarm_description : String
  metric : Metric
  threshold : CdkValue
  evaluation_periods : CdkValue
  comparison_operator : ComparisonOperator
  deriving DecidableEq, Repr

/-- The event pattern added with `event_rule.add_event_pattern(...)`. -/
structure EventPattern where
  source : List String
  detail_type : List String
  resources : List CdkValue
  deriving DecidableEq, Repr

/-- Embedding of `aws_events.Rule(...)`; `targets` records the handlers
registered through `add_target`. -/
structure EventRule where
  id : String
  rule_name : String
  description : String
  event_pattern : EventPattern
  targets : List String
  deriving DecidableEq, Repr

/-- The resources created by `ALBCloudWatchStack.__init__` on its
successful path. -/
structure ALBCloudWatchStack where
  parameters : List CfnParameter
  alarm : Alarm
  event_rule : EventRule
  deriving DecidableEq, Repr

/-- Embedding of `ALBCloudWatchStack.__init__`.  `context` is the CDK
deployment context (`self.node.try_get_context`); `alb_alarm_lambda_ref`
names the decision function passed into the stack.  A missing
`elbTargetGroupArn` context value raises `ValueError`, modelled as
`Except.error` carrying the python error message. -/
def albCloudWatchStack (context : String → Option String)
    (alb_alarm_lambda_ref : String) : Except String ALBCloudWatchStack :=
  match context "elbTargetGroupArn" with
  | none =>
    Except.error
      ("Must specify context parameter elbTargetGroupArn. Usage: cdk <COMMAND> -c elbTargetGroupArn " ++
       "<ELB_TARGET_GROUP_ARN>")
  | some elb_target_group_arn =>
    Except.ok
      { parameters :=
          [{ id := "cwAlarmNamespace", type := "String",
             description := "Namespace for alarm metric",
             default_str := some "AWS/ApplicationELB" },
           { id := "cwAlarmMetricName", type := "String",
             description := "Metric to use for alarm",
             default_str := some "RequestCountPerTarget" },
           { id := "cwAlarmThreshold", type := "Number",
             description := "Threshold for alarm", default_num := some 500 },
           { id := "cwAlarmPeriods", type := "Number",
             description := "Num of periods for alarm", default_num := some 3 }]
        alarm :=
          { id := "ALBTargetGroupAlarm"
            alarm_name := "ALBTargetGroupAlarm"
            alarm_description := "Alarm for RequestCountPerTarget"
            metric :=
              { metric_namespace := CdkValue.param_string "cwAlarmNamespace"
                metric_name := CdkValue.param_string "cwAlarmMetricName"
                dimensions :=
                  [("TargetGroup", target_group_dimension_str elb_target_group_arn)]
                statistic := "sum"
                period_seconds := duration_minutes_to_seconds 1 }
            threshold := CdkValue.param_number "cwAlarmThreshold"
            evaluation_periods := CdkValue.param_number "cwAlarmPeriods"
            comparison_operator := ComparisonOperator.GREATER_THAN_THRESHOLD }
        event_rule :=
          { id := "ALBTargetGroupAlarmEventRule"
            rule_name := "ALBTargetGroupAlarmEventRule"
            description := "EventBridge rule for ALB target"
            event_pattern :=
              { source := ["aws.cloudwatch"]
                detail_type := ["CloudWatch Alarm State Change"]
                resources := [CdkValue.alarm_arn "ALBTargetGroupAlarm"] }
            targets := [alb_alarm_lambda_ref] } }

/-! Permission classes used to compare the execution role against the
stated IAM boundary. -/

/-- Classes of permissions relevant to the role's policies. -/
inductive PermissionClass where
  | queue_send
  | cloudwatch_read
  | elb_target_group_read_modify
  | lambda_logs_and_s3
  | sqs_consume
  | elb_full_control
  deriving DecidableEq, Repr

/-- Modelled from the spec: the stated IAM permission boundary is that the
functions "may send queue messages, read CloudWatch metrics, and
read/modify ELB target-group weights" — three permission classes. -/
def stated_boundary_classes : List PermissionClass :=
  [PermissionClass.queue_send, PermissionClass.cloudwatch_read,
   PermissionClass.elb_target_group_read_modify]

/-- Modelled from the spec: classification, by AWS's published contents, of
the managed policies the role attaches (the policies themselves are not in
this repository).  `AWSLambdaExecute` grants CloudWatch Logs writes and S3
object access; `AWSLambdaSQSQueueExecutionRole` grants SQS message
consumption; `CloudWatchReadOnlyAccess` grants CloudWatch reads;
`ElasticLoadBalancingFullAccess` grants full ELB control, of which
target-group read/modify is a strict subset. -/
def managed_policy_classes (arn : String) : List PermissionClass :=
  if arn = "arn:aws:iam::aws:policy/AWSLambdaExecute" then
    [PermissionClass.lambda_logs_and_s3]
  else if arn = "arn:aws:iam::aws:policy/service-role/AWSLambdaSQSQueueExecutionRole" then
    [PermissionClass.sqs_consume]
  else if arn = "arn:aws:iam::aws:policy/CloudWatchReadOnlyAccess" then
    [PermissionClass.cloudwatch_read]
  else if arn = "arn:aws:iam::aws:policy/ElasticLoadBalancingFullAccess" then
    [PermissionClass.elb_target_group_read_modify, PermissionClass.elb_full_control]
  else []

/-! Helper lemmas about `find_sub`. -/

theorem find_sub_some_spec (need : List Char) :
    ∀ (hay : List Char) (k : Nat), find_sub need hay = some k →
      (hay.drop k).take need.length = need ∧
      ∀ j, j < k → (hay.drop j).take need.length ≠ need := by
  intro hay
  induction hay with
  | nil =>
    intro k h
    by_cases hn : need = []
    · simp only [find_sub, if_pos hn, Option.some.injEq] at h
      subst hn
      refine ⟨by simp [← h], ?_⟩
      intro j hj
      omega
    · simp only [find_sub, if_neg hn] at h
      exact Option.noConfusion h
  | cons c t ih =>
    intro k h
    by_cases hm : (c :: t).take need.length = need
    · simp only [find_sub, if_pos hm, Option.some.injEq] at h
      subst h
      refine ⟨by simpa using hm, ?_⟩
      intro j hj
      omega
    · simp only [find_sub, if_neg hm, Option.map_eq_some'] at h
      obtain ⟨k', hk', rfl⟩ := h
      obtain ⟨h1, h2⟩ := ih k' hk'
      refine ⟨by simpa using h1, ?_⟩
      intro j hj
      cases j with
      | zero => simpa using hm
      | succ j' =>
        have := h2 j' (by omega)
        simpa using this

theorem target_group_dimension_of_found (s : List Char) (k : Nat)
    (h : find_sub targetgroup_chars s = some k) :
    target_group_dimension s = s.drop k := by
  unfold target_group_dimension py_find
  rw [h]
  show py_slice_from s (k : Int) = s.drop k
  unfold py_slice_from
  rw [if_neg (by omega : ¬((k : Int) < 0))]
  congr 1

theorem target_group_dimension_of_not_found (s : List Char)
    (h : find_sub targetgroup_chars s = none) :
    target_group_dimension s = s.drop (s.length - 1) := by
  unfold target_group_dimension py_find
  rw [h]
  show py_slice_from s (-1) = s.drop (s.length - 1)
  unfold py_slice_from
  rw [if_pos (by omega : ((-1 : Int) < 0))]
  congr 1

/-! Claim theorems. -/

/-- Claim C1: constructing `ALBCloudWatchStack` with a context lacking
`elbTargetGroupArn` aborts with the descriptive `ValueError` message and
produces no resources; with the value present, synthesis succeeds without
this error. -/
theorem C1_context_validation (ctx : String → Option String) (lref : String) :
    (ctx "elbTargetGroupArn" = none →
      albCloudWatchStack ctx lref = Except.error
        ("Must specify context parameter elbTargetGroupArn. Usage: cdk <COMMAND> -c elbTargetGroupArn " ++
         "<ELB_TARGET_GROUP_ARN>") ∧
      ∀ st, albCloudWatchStack ctx lref ≠ Except.ok st) ∧
    (∀ v, ctx "elbTargetGroupArn" = some v →
      ∃ st, albCloudWatchStack ctx lref = Except.ok st ∧
        ∀ e, albCloudWatchStack ctx lref ≠ Except.error e) := by
  constructor
  · intro h
    constructor
    · unfold albCloudWatchStack
      rw [h]
    · intro st hst
      unfold albCloudWatchStack at hst
      rw [h] at hst
      exact Except.noConfusion hst
  · intro v h
    unfold albCloudWatchStack
    rw [h]
    exact ⟨_, rfl, fun e he => Except.noConfusion he⟩

theorem C1_context_validation_witness :
    (albCloudWatchStack (fun _ => none) "ALBAlarmLambda" = Except.error
      ("Must specify context parameter elbTargetGroupArn. Usage: cdk <COMMAND> -c elbTargetGroupArn " ++
       "<ELB_TARGET_GROUP_ARN>")) ∧
    (∃ st, albCloudWatchStack
        (fun _ => some "arn:aws:elasticloadbalancing:us-east-1:123456789012:targetgroup/tg1/abc")
        "ALBAlarmLambda" = Except.ok st ∧
      ∀ e, albCloudWatchStack
        (fun _ => some "arn:aws:elasticloadbalancing:us-east-1:123456789012:targetgroup/tg1/abc")
        "ALBAlarmLambda" ≠ Except.error e) :=
  ⟨((C1_context_validation (fun _ => none) "ALBAlarmLambda").1 rfl).1,
   (C1_context_validation
      (fun _ => some "arn:aws:elasticloadbalancing:us-east-1:123456789012:targetgroup/tg1/abc")
      "ALBAlarmLambda").2 _ rfl⟩

/-- Claim C2: the inline policy document grants exactly one permission,
`sqs:SendMessage` with effect `Allow` on the ARN of the queue created in
`ALBMonitorStack`, and nothing else. -/
theorem C2_send_sqs_policy :
    send_sqs_json.version = "2012-10-17" ∧
    send_sqs_json.statements =
      [{ effect := "Allow", action := "sqs:SendMessage",
         resource := CdkValue.queue_arn albMonitorStack.queue.id }] ∧
    albMonitorStack.queue.id = "alb_target_group_monitor_queue" ∧
    albMonitorStack.lambda_execution_role.inline_policies = [send_sqs_json] :=
  ⟨rfl, rfl, rfl, rfl⟩

/-- Claim C3: the `ALBTargetGroupAlarm` alarm uses a 1-minute metric
period, threshold and evaluation periods bound to the `cwAlarmThreshold`
and `cwAlarmPeriods` parameters, and the greater-than comparison. -/
theorem C3_alarm_config (ctx : String → Option String) (lref arn : String)
    (h : ctx "elbTargetGroupArn" = some arn) :
    ∃ st, albCloudWatchStack ctx lref = Except.ok st ∧
      st.alarm.id = "ALBTargetGroupAlarm" ∧
      st.alarm.metric.period_seconds = duration_minutes_to_seconds 1 ∧
      duration_minutes_to_seconds 1 = 60 ∧
      st.alarm.threshold = CdkValue.param_number "cwAlarmThreshold" ∧
      st.alarm.evaluation_periods = CdkValue.param_number "cwAlarmPeriods" ∧
      st.alarm.comparison_operator = ComparisonOperator.GREATER_THAN_THRESHOLD := by
  unfold albCloudWatchStack
  rw [h]
  exact ⟨_, rfl, rfl, rfl, rfl, rfl, rfl, rfl⟩

theorem C3_alarm_config_witness :
    ∃ st, albCloudWatchStack
        (fun _ => some "arn:aws:elasticloadbalancing:us-east-1:123456789012:targetgroup/tg1/abc")
        "ALBAlarmLambda" = Except.ok st ∧
      st.alarm.id = "ALBTargetGroupAlarm" ∧
      st.alarm.metric.period_seconds = duration_minutes_to_seconds 1 ∧
      duration_minutes_to_seconds 1 = 60 ∧
      st.alarm.threshold = CdkValue.param_number "cwAlarmThreshold" ∧
      st.alarm.evaluation_periods = CdkValue.param_number "cwAlarmPeriods" ∧
      st.alarm.comparison_operator = ComparisonOperator.GREATER_THAN_THRESHOLD :=
  C3_alarm_config _ "ALBAlarmLambda"
    "arn:aws:elasticloadbalancing:us-east-1:123456789012:targetgroup/tg1/abc" rfl

/-- Claim C4: the EventBridge rule matches `aws.cloudwatch` events of
detail-type `CloudWatch Alarm State Change` on the created alarm's ARN,
and its sole target is the decision function passed into the stack. -/
theorem C4_event_rule_config (ctx : String → Option String) (lref arn : String)
    (h : ctx "elbTargetGroupArn" = some arn) :
    ∃ st, albCloudWatchStack ctx lref = Except.ok st ∧
      st.event_rule.id = "ALBTargetGroupAlarmEventRule" ∧
      st.event_rule.event_pattern.source = ["aws.cloudwatch"] ∧
      st.event_rule.event_pattern.detail_type = ["CloudWatch Alarm State Change"] ∧
      st.event_rule.event_pattern.resources = [CdkValue.alarm_arn st.alarm.id] ∧
      st.alarm.id = "ALBTargetGroupAlarm" ∧
      st.event_rule.targets = [lref] := by
  unfold albCloudWatchStack
  rw [h]
  exact ⟨_, rfl, rfl, rfl, rfl, rfl, rfl, rfl⟩

theorem C4_event_rule_config_witness :
    ∃ st, albCloudWatchStack
        (fun _ => some "arn:aws:elasticloadbalancing:us-east-1:123456789012:targetgroup/tg1/abc")
        "ALBAlarmLambda" = Except.ok st ∧
      st.event_rule.id = "ALBTargetGroupAlarmEventRule" ∧
      st.event_rule.event_pattern.source = ["aws.cloudwatch"] ∧
      st.event_rule.event_pattern.detail_type = ["CloudWatch Alarm State Change"] ∧
      st.event_rule.event_pattern.resources = [CdkValue.alarm_arn st.alarm.id] ∧
      st.alarm.id = "ALBTargetGroupAlarm" ∧
      st.event_rule.targets = ["ALBAlarmLambda"] :=
  C4_event_rule_config _ "ALBAlarmLambda"
    "arn:aws:elasticloadbalancing:us-east-1:123456789012:targetgroup/tg1/abc" rfl

/-- Claim C5: the queue created in `ALBMonitorStack` is registered as the
SQS event source of the enforcement function `ALBSQSMessageLambda`. -/
theorem C5_queue_event_source :
    albMonitorStack.alb_sqs_alarm_lambda.event_sources = [albMonitorStack.queue.id] ∧
    albMonitorStack.queue.id = "alb_target_group_monitor_queue" ∧
    albMonitorStack.alb_sqs_alarm_lambda.function_name = "ALBSQSMessageLambda" :=
  ⟨rfl, rfl, rfl⟩

/-- Claim C6: the decision function `ALBAlarmLambda` carries exactly the
eight environment variables, each bound to the corresponding parameter
value (and `SQS_QUEUE_URL` to the created queue's URL). -/
theorem C6_alarm_lambda_environment :
    albMonitorStack.alb_alarm_lambda.function_name = "ALBAlarmLambda" ∧
    albMonitorStack.alb_alarm_lambda.environment =
      [("ELB_ARN", CdkValue.param_string "elbArn"),
       ("ELB_LISTENER_ARN", CdkValue.param_string "elbListenerArn"),
       ("SQS_QUEUE_URL", CdkValue.queue_url albMonitorStack.queue.id),
       ("ELB_SHED_PERCENT", CdkValue.param_string "elbShedPercent"),
       ("MAX_ELB_SHED_PERCENT", CdkValue.param_string "maxElbShedPercent"),
       ("ELB_RESTORE_PERCENT", CdkValue.param_string "elbRestorePercent"),
       ("SHED_MESG_DELAY_SEC", CdkValue.param_string "shedMesgDelaySec"),
       ("RESTORE_MESG_DELAY_SEC", CdkValue.param_string "restoreMesgDelaySec")] :=
  ⟨rfl, rfl⟩

/-- Claim C7: the `shedMesgDelaySec` and `restoreMesgDelaySec` parameters
are declared with minimum 60, maximum 300 and defaults 60 and 120, so every
accepted delay value lies in the interval 60 to 300. -/
theorem C7_delay_params :
    albMonitorStack.parameters.find? (fun p => p.id == "shedMesgDelaySec") =
      some { id := "shedMesgDelaySec", type := "Number",
             description := "Number of seconds to delay shed messages",
             min_value := some 60, max_value := some 300, default_num := some 60 } ∧
    albMonitorStack.parameters.find? (fun p => p.id == "restoreMesgDelaySec") =
      some { id := "restoreMesgDelaySec", type := "Number",
             description := "Number of seconds to delay restore messages",
             min_value := some 60, max_value := some 300, default_num := some 120 } ∧
    (∀ v : Int, param_accepts
      { id := "shedMesgDelaySec", type := "Number",
        description := "Number of seconds to delay shed messages",
        min_value := some 60, max_value := some 300, default_num := some 60 } v = true →
      60 ≤ v ∧ v ≤ 300) ∧
    (∀ v : Int, param_accepts
      { id := "restoreMesgDelaySec", type := "Number",
        description := "Number of seconds to delay restore messages",
        min_value := some 60, max_value := some 300, default_num := some 120 } v = true →
      60 ≤ v ∧ v ≤ 300) := by
  refine ⟨rfl, rfl, ?_, ?_⟩
  · intro v hv
    simp only [param_accepts, Bool.and_eq_true, decide_eq_true_eq] at hv
    exact hv
  · intro v hv
    simp only [param_accepts, Bool.and_eq_true, decide_eq_true_eq] at hv
    exact hv

theorem C7_delay_params_witness :
    (60 : Int) ≤ 90 ∧ (90 : Int) ≤ 300 :=
  C7_delay_params.2.2.1 90 (by decide)

/-- Claim C8 counterexample: the execution role's attached policies are not
limited to the three stated permission classes — `AWSLambdaExecute` is
attached and carries a permission class (CloudWatch Logs writes and S3
object access) outside the stated boundary, and
`ElasticLoadBalancingFullAccess` carries full ELB control, beyond
target-group read/modify. -/
theorem C8_role_counterexample :
    "arn:aws:iam::aws:policy/AWSLambdaExecute" ∈
      albMonitorStack.lambda_execution_role.managed_policy_arns ∧
    PermissionClass.lambda_logs_and_s3 ∈
      managed_policy_classes "arn:aws:iam::aws:policy/AWSLambdaExecute" ∧
    PermissionClass.lambda_logs_and_s3 ∉ stated_boundary_classes ∧
    "arn:aws:iam::aws:policy/ElasticLoadBalancingFullAccess" ∈
      albMonitorStack.lambda_execution_role.managed_policy_arns ∧
    PermissionClass.elb_full_control ∈
      managed_policy_classes "arn:aws:iam::aws:policy/ElasticLoadBalancingFullAccess" ∧
    PermissionClass.elb_full_control ∉ stated_boundary_classes := by
  decide

/-- Claim C8 amended: both functions share the single execution role, which
grants the three stated capabilities (inline `sqs:SendMessage` on the
queue's ARN, CloudWatch read, ELB target-group access) but attaches exactly
four managed policies — `AWSLambdaExecute`, `AWSLambdaSQSQueueExecutionRole`,
`CloudWatchReadOnlyAccess`, `ElasticLoadBalancingFullAccess` — so its
boundary is broader than the three classes. -/
theorem C8_role_amended :
    albMonitorStack.alb_alarm_lambda.role_id = albMonitorStack.lambda_execution_role.id ∧
    albMonitorStack.alb_sqs_alarm_lambda.role_id = albMonitorStack.lambda_execution_role.id ∧
    albMonitorStack.lambda_execution_role.assumed_by = "lambda.amazonaws.com" ∧
    albMonitorStack.lambda_execution_role.managed_policy_arns =
      ["arn:aws:iam::aws:policy/AWSLambdaExecute",
       "arn:aws:iam::aws:policy/service-role/AWSLambdaSQSQueueExecutionRole",
       "arn:aws:iam::aws:policy/CloudWatchReadOnlyAccess",
       "arn:aws:iam::aws:policy/ElasticLoadBalancingFullAccess"] ∧
    albMonitorStack.lambda_execution_role.inline_policies = [send_sqs_json] ∧
    send_sqs_json.statements =
      [{ effect := "Allow", action := "sqs:SendMessage",
         resource := CdkValue.queue_arn albMonitorStack.queue.id }] :=
  ⟨rfl, rfl, rfl, rfl, rfl, rfl⟩

/-- Claim C9: the `TargetGroup` dimension is the suffix of the context ARN
from the first occurrence of `'targetgroup'`; when `'targetgroup'` does not
occur, `find` yields `-1` and the dimension degenerates to the suffix
starting at the last character instead of failing. -/
theorem C9_target_group_dimension (ctx : String → Option String) (lref arn : String)
    (h : ctx "elbTargetGroupArn" = some arn) :
    (∃ st, albCloudWatchStack ctx lref = Except.ok st ∧
      st.alarm.metric.dimensions = [("TargetGroup", target_group_dimension_str arn)]) ∧
    (∀ k : Nat, find_sub targetgroup_chars arn.toList = some k →
      (arn.toList.drop k).take targetgroup_chars.length = targetgroup_chars ∧
      (∀ j, j < k → (arn.toList.drop j).take targetgroup_chars.length ≠ targetgroup_chars) ∧
      target_group_dimension_str arn = String.mk (arn.toList.drop k)) ∧
    ((∀ j : Nat, (arn.toList.drop j).take targetgroup_chars.length ≠ targetgroup_chars) →
      py_find arn.toList targetgroup_chars = -1 ∧
      target_group_dimension_str arn =
        String.mk (arn.toList.drop (arn.toList.length - 1))) := by
  refine ⟨?_, ?_, ?_⟩
  · unfold albCloudWatchStack
    rw [h]
    exact ⟨_, rfl, rfl⟩
  · intro k hk
    obtain ⟨h1, h2⟩ := find_sub_some_spec targetgroup_chars arn.toList k hk
    refine ⟨h1, h2, ?_⟩
    unfold target_group_dimension_str
    rw [target_group_dimension_of_found arn.toList k hk]
  · intro hall
    cases hfs : find_sub targetgroup_chars arn.toList with
    | some k =>
      exact absurd (find_sub_some_spec targetgroup_chars arn.toList k hfs).1 (hall k)
    | none =>
      refine ⟨?_, ?_⟩
      · unfold py_find
        rw [hfs]
      · unfold target_group_dimension_str
        rw [target_group_dimension_of_not_found arn.toList hfs]

theorem C9_target_group_dimension_witness :
    ∃ st, albCloudWatchStack
        (fun _ => some "arn:aws:elasticloadbalancing:us-east-1:123456789012:targetgroup/tg1/abc")
        "ALBAlarmLambda" = Except.ok st ∧
      st.alarm.metric.dimensions =
        [("TargetGroup", target_group_dimension_str
            "arn:aws:elasticloadbalancing:us-east-1:123456789012:targetgroup/tg1/abc")] :=
  (C9_target_group_dimension _ "ALBAlarmLambda"
    "arn:aws:elasticloadbalancing:us-east-1:123456789012:targetgroup/tg1/abc" rfl).1

/-- Claim C10: the enforcement function `ALBSQSMessageLambda` is created
with no environment variables at all. -/
theorem C10_sqs_lambda_no_environment :
    albMonitorStack.alb_sqs_alarm_lambda.function_name = "ALBSQSMessageLambda" ∧
    albMonitorStack.alb_sqs_alarm_lambda.environment = ([] : List (String × CdkValue)) :=
  ⟨rfl, rfl⟩
